import Mathlib

/-!
# Astronomical Globe Rendering & Synchronization Engine — verification

Shallow embedding of the engine implemented in `src/app/page.tsx` (second,
final iteration of the component) and `src/unnamed/part_000`:

* longitude normalization (the `while` loop pair in `animate`),
* the per-frame `animate` step (rotation scheduler + interaction gate read),
* the interaction gate handlers (`handleInteractionStart` / `handleInteractionEnd`
  and the debounce timer callback),
* the camera-tilt synchronizer (steps 3–5 of `animate`),
* the day/night fragment shader blend,
* the solar-position longitude (`sunPosAt`).

JavaScript numbers are embedded as exact rationals (`ℚ`) and timestamps
(`Date.now()`) as integers (`ℤ`, milliseconds since epoch).  Camera and
ephemeris quantities that are genuinely transcendental are embedded over `ℝ`.
-/

namespace Globe

/-! ## Longitude normalization

`animate` (page.tsx lines 725–726):
```
while (newLng <= -180) newLng += 360;
while (newLng > 180) newLng -= 360;
```
-/

/-- First loop: `while (newLng <= -180) newLng += 360`. -/
def bumpUp (x : ℚ) : ℚ :=
  if x ≤ -180 then bumpUp (x + 360) else x
termination_by (⌈-x⌉).toNat
decreasing_by
  have h1 : (180 : ℚ) ≤ -x := by linarith
  have h2 : (180 : ℤ) ≤ ⌈-x⌉ := by
    calc (180 : ℤ) = ⌈(180 : ℚ)⌉ := by norm_num
    _ ≤ ⌈-x⌉ := Int.ceil_le_ceil h1
  have h3 : ⌈-(x + 360)⌉ = ⌈-x⌉ - 360 := by
    have : -(x + 360) = -x - (360 : ℤ) := by push_cast; ring
    rw [this, Int.ceil_sub_int]
  omega

/-- Second loop: `while (newLng > 180) newLng -= 360`. -/
def bumpDown (x : ℚ) : ℚ :=
  if 180 < x then bumpDown (x - 360) else x
termination_by (⌈x⌉).toNat
decreasing_by
  have h2 : (180 : ℤ) ≤ ⌈x⌉ := by
    calc (180 : ℤ) = ⌈(180 : ℚ)⌉ := by norm_num
    _ ≤ ⌈x⌉ := Int.ceil_le_ceil (by linarith)
  have h3 : ⌈x - 360⌉ = ⌈x⌉ - 360 := by
    have : x - 360 = x - (360 : ℤ) := by push_cast; ring
    rw [this, Int.ceil_sub_int]
  omega

/-- The normalization performed on `newLng` by `animate`: both loops in order. -/
def normalizeLng (x : ℚ) : ℚ := bumpDown (bumpUp x)

lemma bumpUp_gt (x : ℚ) : -180 < bumpUp x := by
  induction x using bumpUp.induct with
  | case1 x h ih => rw [bumpUp, if_pos h]; exact ih
  | case2 x h => rw [bumpUp, if_neg h]; linarith

lemma bumpUp_le (x : ℚ) (hx : x ≤ 180) : bumpUp x ≤ 180 := by
  induction x using bumpUp.induct with
  | case1 x h ih => rw [bumpUp, if_pos h]; exact ih (by linarith)
  | case2 x h => rw [bumpUp, if_neg h]; exact hx

lemma bumpUp_shift (x : ℚ) : ∃ k : ℤ, bumpUp x = x + 360 * k := by
  induction x using bumpUp.induct with
  | case1 x h ih =>
    obtain ⟨k, hk⟩ := ih
    exact ⟨k + 1, by rw [bumpUp, if_pos h, hk]; push_cast; ring⟩
  | case2 x h => exact ⟨0, by rw [bumpUp, if_neg h]; push_cast; ring⟩

lemma bumpDown_le (x : ℚ) : bumpDown x ≤ 180 := by
  induction x using bumpDown.induct with
  | case1 x h ih => rw [bumpDown, if_pos h]; exact ih
  | case2 x h => rw [bumpDown, if_neg h]; linarith

lemma bumpDown_gt (x : ℚ) (hx : -180 < x) : -180 < bumpDown x := by
  induction x using bumpDown.induct with
  | case1 x h ih => rw [bumpDown, if_pos h]; exact ih (by linarith)
  | case2 x h => rw [bumpDown, if_neg h]; exact hx

lemma bumpDown_shift (x : ℚ) : ∃ k : ℤ, bumpDown x = x + 360 * k := by
  induction x using bumpDown.induct with
  | case1 x h ih =>
    obtain ⟨k, hk⟩ := ih
    exact ⟨k - 1, by rw [bumpDown, if_pos h, hk]; push_cast; ring⟩
  | case2 x h => exact ⟨0, by rw [bumpDown, if_neg h]; push_cast; ring⟩

/-! ## The per-frame `animate` step (page.tsx lines 696–738)

State visible to one run of `animate`: the `isMounted` flag, truthiness of
`world` and `solarRef.current`, `lastFrameTimeRef`, `isUserInteracting`, the
current `pointOfView` (`lat`/`lng`/`altitude`), and the camera.  The camera-tilt
write (step 3) is tracked by recording the declination value the up-vector was
last derived from, and `cam.lookAt(0, 0, 0)` (step 5) by a counter; their
real-vector form is treated separately (`camTickTrace`).  `pointOfView` writes
are counted so that "no rotation write happened" is expressible, and whether
`requestAnimationFrame(animate)` was reached is recorded in `rescheduled`. -/

/-- The globe's view state as read/written through `world.pointOfView()`. -/
structure Pov where
  lat : ℚ
  lng : ℚ
  alt : ℚ
deriving DecidableEq

/-- State read and written by one execution of `animate`. -/
structure AnimState where
  isMounted : Bool
  worldReady : Bool
  solarReady : Bool
  isUserInteracting : Bool
  lastFrameTime : ℤ
  pov : Pov
  camDecl : ℚ
  lookAtCount : Nat
  povWriteCount : Nat
  rescheduled : Bool
deriving DecidableEq

/-- `const degreesPerMillisecond = (360 / (24 * 60 * 60 * 1000))`
(page.tsx line 518). -/
def degreesPerMillisecond : ℚ := 360 / (24 * 60 * 60 * 1000)

/-- One execution of `animate` at wall-clock time `now`, parameterized by the
declination function `decl` (the value `getSunDeclination(currentTime)` returns,
computed by the external `solar-calculator` package) and the rotation rate
`rate` (`degreesPerMillisecond` in the source).  Mirrors page.tsx lines 696–738:
the not-mounted early return, the `deltaTime` computation and
`lastFrameTimeRef` update, the not-ready guard that only reschedules, the
camera-tilt update, the gated rotation write, and the final `lookAt`. -/
def animateStep (decl : ℤ → ℚ) (rate : ℚ) (now : ℤ) (s : AnimState) : AnimState :=
  if s.isMounted = false then { s with rescheduled := false }
  else
    let deltaTime : ℤ := now - s.lastFrameTime
    let s1 := { s with lastFrameTime := now }
    if s1.worldReady = false ∨ s1.solarReady = false then
      { s1 with rescheduled := true }
    else
      let s2 := { s1 with camDecl := decl now }
      let s3 :=
        if s2.isUserInteracting = false ∧ 0 < deltaTime then
          let rotationIncrementDegrees := rate * (deltaTime : ℚ)
          let newLng := normalizeLng (s2.pov.lng - rotationIncrementDegrees)
          { s2 with
            pov := { lat := s2.pov.lat, lng := newLng, alt := s2.pov.alt }
            povWriteCount := s2.povWriteCount + 1 }
        else s2
      { s3 with lookAtCount := s3.lookAtCount + 1, rescheduled := true }

/-- On a mounted, ready, idle tick with positive `deltaTime`, the point of view
written by `animateStep` keeps latitude and altitude and replaces the longitude
by the normalized decremented value. -/
lemma animateStep_pov_idle (decl : ℤ → ℚ) (rate : ℚ) (now : ℤ) (s : AnimState)
    (hm : s.isMounted = true) (hw : s.worldReady = true) (hs : s.solarReady = true)
    (hg : s.isUserInteracting = false) (hdt : 0 < now - s.lastFrameTime) :
    (animateStep decl rate now s).pov
      = { lat := s.pov.lat
          lng := normalizeLng (s.pov.lng - rate * ((now - s.lastFrameTime : ℤ) : ℚ))
          alt := s.pov.alt } := by
  unfold animateStep
  rw [if_neg (by simp [hm]), if_neg (by simp [hw, hs])]
  simp [hg, hdt]

/-! ## Interaction gate (page.tsx lines 520–536)

`handleInteractionStart` / `handleInteractionEnd` mutate the refs
`isUserInteracting`, `interactionTimeoutRef` and (from the timer callback)
`lastFrameTimeRef`.  The pending `setTimeout` is embedded as the absolute
deadline it was armed with; advancing the wall clock to `now` runs the one-shot
callback when the deadline has passed. -/

/-- The debounce delay passed to `setTimeout` (page.tsx line 535). -/
def debounceDelayMs : ℤ := 2000

/-- The refs touched by the interaction handlers and their timer callback. -/
structure GateState where
  isInteracting : Bool
  timerDeadline : Option ℤ
  lastFrameTime : ℤ
deriving DecidableEq

/-- `handleInteractionStart`: set the interacting flag and cancel any pending
release timer (`clearTimeout`). -/
def handleInteractionStart (s : GateState) : GateState :=
  { s with isInteracting := true, timerDeadline := none }

/-- `handleInteractionEnd` at time `now`: cancel any pending release timer and
arm a fresh one firing `debounceDelayMs` later.  The interacting flag is left
untouched until the timer fires. -/
def handleInteractionEnd (now : ℤ) (s : GateState) : GateState :=
  { s with timerDeadline := some (now + debounceDelayMs) }

/-- Advance the wall clock to `now`: if a release timer is armed and its
deadline has passed, its one-shot callback runs — it clears the interacting
flag and resets the scheduler's frame-time baseline to the current time
(`lastFrameTimeRef.current = Date.now()`, page.tsx lines 533–534). -/
def advanceClock (now : ℤ) (s : GateState) : GateState :=
  match s.timerDeadline with
  | some d =>
      if d ≤ now then
        { isInteracting := false, timerDeadline := none, lastFrameTime := now }
      else s
  | none => s

/-! ## Day/night fragment shader (page.tsx lines 565–591)

Floating-point GLSL arithmetic is embedded over exact rationals; colors are
RGBA quadruples.  `vNormal` arrives normalized from the vertex shader, and the
fixed view-space sun direction is `normalize(vec3(1.0, 0.0, 0.0))`, which is
the unit vector `(1, 0, 0)` itself. -/

/-- An RGBA color sample. -/
structure Color where
  r : ℚ
  g : ℚ
  b : ℚ
  a : ℚ
deriving DecidableEq

/-- GLSL `smoothstep(edge0, edge1, x)`:
`t = clamp((x - edge0) / (edge1 - edge0), 0, 1); t * t * (3 - 2 * t)` with
`clamp(v, lo, hi) = min(max(v, lo), hi)`. -/
def smoothstepQ (edge0 edge1 x : ℚ) : ℚ :=
  let t := min (max ((x - edge0) / (edge1 - edge0)) 0) 1
  t * t * (3 - 2 * t)

/-- GLSL `mix(x, y, a) = x * (1 - a) + y * a`, componentwise on colors. -/
def mixColor (x y : Color) (t : ℚ) : Color where
  r := x.r * (1 - t) + y.r * t
  g := x.g * (1 - t) + y.g * t
  b := x.b * (1 - t) + y.b * t
  a := x.a * (1 - t) + y.a * t

/-- Dot product on view-space vectors. -/
def dot3 (u v : ℚ × ℚ × ℚ) : ℚ :=
  u.1 * v.1 + u.2.1 * v.2.1 + u.2.2 * v.2.2

/-- `vec3 sunDirectionViewSpace = normalize(vec3(1.0, 0.0, 0.0))`. -/
def sunDirectionViewSpace : ℚ × ℚ × ℚ := (1, 0, 0)

/-- `float intensity = max(0.0, dot(vNormal, sunDirectionViewSpace))`. -/
def fragIntensity (vNormal : ℚ × ℚ × ℚ) : ℚ :=
  max 0 (dot3 vNormal sunDirectionViewSpace)

/-- The lower smoothstep edge of the terminator band (`0.0`). -/
def terminatorLoEdge : ℚ := 0

/-- The upper smoothstep edge of the terminator band (`0.15`). -/
def terminatorHiEdge : ℚ := 15 / 100

/-- The fragment shader's output:
`gl_FragColor = mix(nightColor, dayColor, smoothstep(0.0, 0.15, intensity))`. -/
def fragShade (vNormal : ℚ × ℚ × ℚ) (dayColor nightColor : Color) : Color :=
  mixColor nightColor dayColor
    (smoothstepQ terminatorLoEdge terminatorHiEdge (fragIntensity vNormal))

lemma mixColor_zero (x y : Color) : mixColor x y 0 = x := by
  simp [mixColor]

lemma mixColor_one (x y : Color) : mixColor x y 1 = y := by
  simp [mixColor]

lemma smoothstepQ_lo :
    smoothstepQ terminatorLoEdge terminatorHiEdge terminatorLoEdge = 0 := by
  norm_num [smoothstepQ, terminatorLoEdge, terminatorHiEdge]

lemma smoothstepQ_hi (x : ℚ) (hx : terminatorHiEdge ≤ x) :
    smoothstepQ terminatorLoEdge terminatorHiEdge x = 1 := by
  have he : (0 : ℚ) < terminatorHiEdge - terminatorLoEdge := by
    norm_num [terminatorLoEdge, terminatorHiEdge]
  have h1 : (1 : ℚ) ≤ (x - terminatorLoEdge) / (terminatorHiEdge - terminatorLoEdge) := by
    rw [le_div_iff₀ he]
    norm_num [terminatorLoEdge, terminatorHiEdge] at hx ⊢
    linarith
  simp only [smoothstepQ]
  rw [max_eq_left (le_trans zero_le_one h1), min_eq_right h1]
  ring

/-! ## Solar-position longitude (`sunPosAt`, page.tsx lines 137–144 and
src/unnamed/part_000 lines 136–141)

```
const day = new Date(dt).setUTCHours(0, 0, 0, 0);
const t = solarCalc.century(dt);
const longitude = (day - dt) / 864e5 * 360 - 180;
return [longitude - solarCalc.equationOfTime(t) / 4, solarCalc.declination(t)];
```
`day` is the start of the UTC day containing `dt`, i.e. `dt` floored to a
multiple of 86,400,000 ms (for a positive divisor, `ℤ` division below is this
floor).  `century` and `equationOfTime` belong to the external
`solar-calculator` package whose source is not part of this repository. -/

/-- `new Date(dt).setUTCHours(0, 0, 0, 0)`: start of the UTC day of `dt`. -/
def dayStartMs (dt : ℤ) : ℤ := 86400000 * (dt / 86400000)

/-- `solar.century(dt)`: Julian centuries since the J2000 epoch
(1 Jan 2000 12:00 UTC = 946,728,000,000 ms; one Julian century is
3,155,760,000,000 ms). -/
def century (dt : ℤ) : ℚ := ((dt : ℚ) - 946728000000) / 3155760000000

/-- Modelled from the spec: `solar.equationOfTime` of the external
solar-calculator package — the repository only calls it, so it is missing from
the sources.  The spec describes it as "the equation-of-time fractional
adjustment", a small periodic correction (minutes of time, divided by 4 to
obtain degrees).  Its pointwise values are irrelevant to the claims settled
here — the raw longitude is out of the claimed range regardless of any
physically plausible correction — so it is modelled as the zero correction. -/
def equationOfTime (_t : ℚ) : ℚ := 0

/-- The longitude component of `sunPosAt dt`:
`(day - dt) / 864e5 * 360 - 180 - equationOfTime(century(dt)) / 4`. -/
def sunPosAtLng (dt : ℤ) : ℚ :=
  ((dayStartMs dt - dt : ℤ) : ℚ) / 86400000 * 360 - 180
    - equationOfTime (century dt) / 4

/-! ## Camera-tilt synchronizer (page.tsx lines 708–735; same formula in the
initial setup, lines 669–678)

Steps 3–5 of a ready `animate` tick:
```
cam.up.set(Math.sin(-currentTiltRad), Math.cos(-currentTiltRad), 0);
if (!isUserInteracting.current && deltaTime > 0) { ... world.pointOfView(...) }
cam.lookAt(0, 0, 0);
```
with `currentTiltRad = MathUtils.degToRad(actualDeclination)`.  The tick's
camera-visible operations are embedded as an event trace in program order. -/

/-- `THREE.MathUtils.degToRad`. -/
noncomputable def degToRad (degrees : ℝ) : ℝ := degrees * (Real.pi / 180)

/-- The up-vector the synchronizer writes for a declination (in degrees):
`(sin(-tiltRad), cos(-tiltRad), 0)` with `tiltRad = degToRad(declination)`. -/
noncomputable def upVector (declinationDegrees : ℝ) : ℝ × ℝ × ℝ :=
  (Real.sin (-(degToRad declinationDegrees)),
   Real.cos (-(degToRad declinationDegrees)), 0)

/-- Camera-visible operations of one ready `animate` tick. -/
inductive CamEvent where
  | setUp : ℝ × ℝ × ℝ → CamEvent
  | povWrite : CamEvent
  | lookAt : ℝ × ℝ × ℝ → CamEvent

/-- The operations a ready tick performs, in program order: set the camera
up-vector from the current declination, optionally write the rotated point of
view (only when the gate is idle), and finally re-issue `cam.lookAt(0, 0, 0)`. -/
noncomputable def camTickTrace (declinationDegrees : ℝ) (interacting : Bool) :
    List CamEvent :=
  [CamEvent.setUp (upVector declinationDegrees)]
    ++ (if interacting then [] else [CamEvent.povWrite])
    ++ [CamEvent.lookAt (0, 0, 0)]

/-! ## Solar declination (`getSunDeclination`, page.tsx lines 594–599)

`getSunDeclination(dt)` returns `solarCalc.declination(solarCalc.century(dt))`
of the external solar-calculator package, whose source is not part of this
repository. -/

/-- The obliquity of the ecliptic, `23.44°`, in radians. -/
noncomputable def obliquityRad : ℝ := 23.44 * Real.pi / 180

/-- Modelled from the spec: the sun's mean ecliptic longitude in radians, an
affine function of the century fraction (`280.46° + 36000.77° · t`), the
parameter of the standard ephemeris approximation. -/
noncomputable def meanSolarLongitude (t : ℝ) : ℝ :=
  (280.46 + 36000.77 * t) * Real.pi / 180

/-- Modelled from the spec: `solar.declination` — "declination comes from a
standard solar ephemeris approximation parameterized by a century fraction":
the standard approximation `δ(t) = arcsin(sin ε · sin L(t))` (degrees), with
obliquity `ε` and mean solar longitude `L`. -/
noncomputable def declinationAt (t : ℝ) : ℝ :=
  Real.arcsin (Real.sin obliquityRad * Real.sin (meanSolarLongitude t))
    * 180 / Real.pi

/-- `solar.century` over real-valued instants (milliseconds since epoch), for
stating continuity in the instant. -/
noncomputable def centuryR (dt : ℝ) : ℝ := (dt - 946728000000) / 3155760000000

/-- `getSunDeclination(dt) = solarCalc.declination(solarCalc.century(dt))`
(page.tsx lines 595–599; its not-yet-loaded guard returning 0 is the
readiness concern treated with the frame loop). -/
noncomputable def getSunDeclination (dt : ℝ) : ℝ := declinationAt (centuryR dt)

/-- The modelled ephemeris declination is bounded by the obliquity and is a
continuous function of the century fraction. -/
lemma declinationAt_range_continuous :
    (∀ t : ℝ, -23.44 ≤ declinationAt t ∧ declinationAt t ≤ 23.44) ∧
    Continuous declinationAt := by
  have hπ : (0 : ℝ) < Real.pi := Real.pi_pos
  have hε0 : 0 ≤ obliquityRad := by rw [obliquityRad]; positivity
  have hε2 : obliquityRad ≤ Real.pi / 2 := by rw [obliquityRad]; linarith
  have hsε : 0 ≤ Real.sin obliquityRad :=
    Real.sin_nonneg_of_nonneg_of_le_pi hε0 (by linarith)
  have harcsin_eq : Real.arcsin (Real.sin obliquityRad) = obliquityRad :=
    Real.arcsin_sin (by linarith) hε2
  have hval : obliquityRad * 180 / Real.pi = 23.44 := by
    rw [obliquityRad]
    field_simp
  constructor
  · intro t
    have hs1 : Real.sin (meanSolarLongitude t) ≤ 1 := Real.sin_le_one _
    have hs2 : -1 ≤ Real.sin (meanSolarLongitude t) := Real.neg_one_le_sin _
    have hbu : Real.sin obliquityRad * Real.sin (meanSolarLongitude t)
        ≤ Real.sin obliquityRad := by nlinarith
    have hbl : -(Real.sin obliquityRad)
        ≤ Real.sin obliquityRad * Real.sin (meanSolarLongitude t) := by nlinarith
    have hup : Real.arcsin (Real.sin obliquityRad * Real.sin (meanSolarLongitude t))
        ≤ obliquityRad := by
      have h := Real.monotone_arcsin hbu
      rwa [harcsin_eq] at h
    have hlo : -obliquityRad
        ≤ Real.arcsin (Real.sin obliquityRad * Real.sin (meanSolarLongitude t)) := by
      have h := Real.monotone_arcsin hbl
      rwa [Real.arcsin_neg, harcsin_eq] at h
    constructor
    · rw [declinationAt]
      calc -(23.44 : ℝ) = -obliquityRad * 180 / Real.pi := by rw [← hval]; ring
      _ ≤ Real.arcsin (Real.sin obliquityRad * Real.sin (meanSolarLongitude t))
            * 180 / Real.pi := by gcongr
    · rw [declinationAt]
      calc Real.arcsin (Real.sin obliquityRad * Real.sin (meanSolarLongitude t))
            * 180 / Real.pi
          ≤ obliquityRad * 180 / Real.pi := by gcongr
      _ = 23.44 := hval
  · unfold declinationAt meanSolarLongitude
    have h1 : Continuous fun t : ℝ => 280.46 + 36000.77 * t :=
      continuous_const.add (continuous_const.mul continuous_id)
    have h2 : Continuous fun t : ℝ => (280.46 + 36000.77 * t) * Real.pi / 180 :=
      (h1.mul continuous_const).div_const 180
    have h3 : Continuous fun t : ℝ =>
        Real.sin obliquityRad * Real.sin ((280.46 + 36000.77 * t) * Real.pi / 180) :=
      continuous_const.mul (Real.continuous_sin.comp h2)
    exact ((Real.continuous_arcsin.comp h3).mul continuous_const).div_const _

/-- A concrete mounted, ready, idle state used to instantiate the frame-loop
theorems: view at the prime meridian, altitude factor 2, baseline time 0. -/
def sampleState : AnimState where
  isMounted := true
  worldReady := true
  solarReady := true
  isUserInteracting := false
  lastFrameTime := 0
  pov := { lat := 0, lng := 0, alt := 2 }
  camDecl := 0
  lookAtCount := 0
  povWriteCount := 0
  rescheduled := true

end Globe

/-! ## Theorems -/

namespace Globe

/-- Claim C3: the while-loop pair normalizing a raw longitude terminates (it is
embedded as the total function `normalizeLng`), returns a value in the interval
`(-180, 180]`, and differs from its input by an integer multiple of 360, hence
represents the same physical bearing modulo 360.  Raw JavaScript longitude
values are embedded as exact rationals. -/
theorem normalizeLng_spec (x : ℚ) :
    -180 < normalizeLng x ∧ normalizeLng x ≤ 180 ∧
      ∃ k : ℤ, normalizeLng x = x + 360 * k := by
  refine ⟨bumpDown_gt _ (bumpUp_gt x), bumpDown_le _, ?_⟩
  obtain ⟨k₁, hk₁⟩ := bumpUp_shift x
  obtain ⟨k₂, hk₂⟩ := bumpDown_shift (bumpUp x)
  exact ⟨k₁ + k₂, by rw [normalizeLng, hk₂, hk₁]; push_cast; ring⟩

/-- Claim C1, counterexample: at a mounted, ready, idle tick with baseline time
0 and `now = 240000` ms (so `Δt = 240000` and `r·Δt = 1` degree exactly at the
default rate), the code sets the longitude to `normalizeLng (0 - 1) = -1`,
not to `normalizeLng (0 + 1) = 1` as the claim's "advances longitude by
`r·Δt`" states. -/
theorem animate_advances_by_rdt_counterexample :
    ¬ ((animateStep (fun _ => 0) degreesPerMillisecond 240000 sampleState).pov.lng
        = normalizeLng (sampleState.pov.lng
            + degreesPerMillisecond * ((240000 - sampleState.lastFrameTime : ℤ) : ℚ))) := by
  have h1 : normalizeLng (-1 : ℚ) = -1 := by
    rw [normalizeLng, bumpUp]; norm_num; rw [bumpDown]; norm_num
  have h2 : normalizeLng (1 : ℚ) = 1 := by
    rw [normalizeLng, bumpUp]; norm_num; rw [bumpDown]; norm_num
  have ha : sampleState.pov.lng
      - degreesPerMillisecond * ((240000 - sampleState.lastFrameTime : ℤ) : ℚ) = -1 := by
    norm_num [sampleState, degreesPerMillisecond]
  have hb : sampleState.pov.lng
      + degreesPerMillisecond * ((240000 - sampleState.lastFrameTime : ℤ) : ℚ) = 1 := by
    norm_num [sampleState, degreesPerMillisecond]
  have hpov := animateStep_pov_idle (fun _ => 0) degreesPerMillisecond 240000
    sampleState rfl rfl rfl rfl (by decide)
  intro hEq
  rw [hpov] at hEq
  simp only [ha, hb, h1, h2] at hEq
  exact absurd hEq (by norm_num)

/-- Claim C1, amended: at every mounted, ready tick with the gate `Idle` and
`Δt = now - lastFrameTime > 0`, the scheduler moves `ViewState.longitude` by
exactly `-r·Δt` degrees (it subtracts the increment `r·Δt`, then normalizes),
where the default rate `degreesPerMillisecond` equals `360 / 86,400,000`
degrees per millisecond, and latitude/altitude are taken unchanged from the
current point of view. -/
theorem animate_idle_rotation (decl : ℤ → ℚ) (now : ℤ) (s : AnimState)
    (hm : s.isMounted = true) (hw : s.worldReady = true) (hs : s.solarReady = true)
    (hg : s.isUserInteracting = false) (hdt : 0 < now - s.lastFrameTime) :
    degreesPerMillisecond = 360 / 86400000 ∧
    (animateStep decl degreesPerMillisecond now s).pov.lng
      = normalizeLng (s.pov.lng
          - degreesPerMillisecond * ((now - s.lastFrameTime : ℤ) : ℚ)) ∧
    (animateStep decl degreesPerMillisecond now s).pov.lat = s.pov.lat ∧
    (animateStep decl degreesPerMillisecond now s).pov.alt = s.pov.alt := by
  refine ⟨by norm_num [degreesPerMillisecond], ?_, ?_, ?_⟩ <;>
    simp [animateStep, hm, hw, hs, hg, hdt]

/-- Witness for `animate_idle_rotation` at the concrete idle state
`sampleState` and `now = 240000`. -/
theorem animate_idle_rotation_witness :
    degreesPerMillisecond = 360 / 86400000 ∧
    (animateStep (fun _ => 0) degreesPerMillisecond 240000 sampleState).pov.lng
      = normalizeLng (sampleState.pov.lng
          - degreesPerMillisecond * ((240000 - sampleState.lastFrameTime : ℤ) : ℚ)) ∧
    (animateStep (fun _ => 0) degreesPerMillisecond 240000 sampleState).pov.lat
      = sampleState.pov.lat ∧
    (animateStep (fun _ => 0) degreesPerMillisecond 240000 sampleState).pov.alt
      = sampleState.pov.alt :=
  animate_idle_rotation (fun _ => 0) 240000 sampleState rfl rfl rfl rfl (by decide)

/-- Claim C4: whenever `isUserInteracting` is `true` at a frame tick, that run
of `animate` performs no `pointOfView` write at all — the point of view is
unchanged and the write counter does not move, in every state of the frame
loop. -/
theorem animate_interacting_no_rotation_write (decl : ℤ → ℚ) (rate : ℚ)
    (now : ℤ) (s : AnimState) (h : s.isUserInteracting = true) :
    (animateStep decl rate now s).pov = s.pov ∧
    (animateStep decl rate now s).povWriteCount = s.povWriteCount := by
  cases hm : s.isMounted <;> cases hw : s.worldReady <;> cases hs : s.solarReady <;>
    simp [animateStep, hm, hw, hs, h]

/-- Witness for `animate_interacting_no_rotation_write` at a concrete
interacting state. -/
theorem animate_interacting_no_rotation_write_witness :
    (animateStep (fun _ => 0) degreesPerMillisecond 500
        { sampleState with isUserInteracting := true }).pov
      = ({ sampleState with isUserInteracting := true } : AnimState).pov ∧
    (animateStep (fun _ => 0) degreesPerMillisecond 500
        { sampleState with isUserInteracting := true }).povWriteCount
      = ({ sampleState with isUserInteracting := true } : AnimState).povWriteCount :=
  animate_interacting_no_rotation_write (fun _ => 0) degreesPerMillisecond 500
    { sampleState with isUserInteracting := true } rfl

/-- Claim C8: if `world` or `solarRef.current` is not yet initialized when a
mounted tick fires, `animate` only updates the frame-time baseline and
reschedules the next tick: the point of view, camera tilt, look-at count and
write counter are untouched, and the step is a total function (no throw or
halt of the loop). -/
theorem animate_not_ready_skips (decl : ℤ → ℚ) (rate : ℚ) (now : ℤ)
    (s : AnimState) (hm : s.isMounted = true)
    (hnr : s.worldReady = false ∨ s.solarReady = false) :
    animateStep decl rate now s
      = { s with lastFrameTime := now, rescheduled := true } := by
  unfold animateStep
  rw [if_neg (by simp [hm]), if_pos (by simpa using hnr)]

/-- Witness for `animate_not_ready_skips` at a concrete mounted state whose
rendering toolkit object is still absent. -/
theorem animate_not_ready_skips_witness :
    animateStep (fun _ => 0) degreesPerMillisecond 700
        { sampleState with worldReady := false }
      = { ({ sampleState with worldReady := false } : AnimState) with
          lastFrameTime := 700, rescheduled := true } :=
  animate_not_ready_skips (fun _ => 0) degreesPerMillisecond 700
    { sampleState with worldReady := false } rfl (Or.inl rfl)

/-- Claim C10: an idle-tick auto-rotation update writes only the longitude
component of the view state: the latitude and altitude handed to `pointOfView`
are the ones read from the current point of view in the same tick, passed
through unchanged. -/
theorem animate_idle_preserves_lat_alt (decl : ℤ → ℚ) (rate : ℚ) (now : ℤ)
    (s : AnimState)
    (hm : s.isMounted = true) (hw : s.worldReady = true) (hs : s.solarReady = true)
    (hg : s.isUserInteracting = false) (hdt : 0 < now - s.lastFrameTime) :
    (animateStep decl rate now s).pov.lat = s.pov.lat ∧
    (animateStep decl rate now s).pov.alt = s.pov.alt := by
  constructor <;> simp [animateStep, hm, hw, hs, hg, hdt]

/-- Claim C2, counterexample: at `dt = 43,200,000` ms (noon UTC, 1 Jan 1970)
the longitude returned by `sunPosAt` is `-360` (minus the equation-of-time
correction), which does not lie in `(-180, 180]`.  The code never normalizes
this raw value; its only consumer (the shader's `Polar2Cartesian`) is
360°-periodic, so the code is self-consistent while the claimed range is not. -/
theorem sunPosAt_longitude_range_counterexample :
    sunPosAtLng 43200000 = -360 ∧
    ¬ (-180 < sunPosAtLng 43200000 ∧ sunPosAtLng 43200000 ≤ 180) := by
  have h : sunPosAtLng 43200000 = -360 := by
    norm_num [sunPosAtLng, dayStartMs, equationOfTime, century]
  refine ⟨h, ?_⟩
  rw [h]
  norm_num

/-- Claim C2, amended: for every finite instant, the longitude component of
`sunPosAt` (with the equation-of-time correction modelled as zero) lies in the
interval `(-540, -180]`: it is the raw, unnormalized day-fraction angle, equal
only modulo 360 to a value in `(-180, 180]`. -/
theorem sunPosAtLng_range (dt : ℤ) :
    -540 < sunPosAtLng dt ∧ sunPosAtLng dt ≤ -180 := by
  have h0 : (0 : ℤ) ≤ dt % 86400000 := Int.emod_nonneg dt (by norm_num)
  have h1 : dt % 86400000 < 86400000 := Int.emod_lt_of_pos dt (by norm_num)
  have hds : dayStartMs dt - dt = -(dt % 86400000) := by
    rw [dayStartMs]
    omega
  have hm0 : (0 : ℚ) ≤ ((dt % 86400000 : ℤ) : ℚ) := by exact_mod_cast h0
  have hm1 : ((dt % 86400000 : ℤ) : ℚ) < 86400000 := by exact_mod_cast h1
  rw [sunPosAtLng, hds, equationOfTime]
  push_cast
  have key : -((dt % 86400000 : ℤ) : ℚ) / 86400000 * 360
      = -(((dt % 86400000 : ℤ) : ℚ) * (1 / 240000)) := by ring
  constructor <;> rw [key] <;> linarith

/-- Claim C6: on every ready frame tick, regardless of the interaction gate's
state, the tick first sets the camera up-vector to
`(sin(-tiltRad), cos(-tiltRad), 0)` with `tiltRad = degToRad(declination)` for
the current declination, and its last camera operation re-issues the
look-at-origin framing. -/
theorem camera_sync_every_tick (declinationDegrees : ℝ) (interacting : Bool) :
    (camTickTrace declinationDegrees interacting).head?
      = some (CamEvent.setUp
          (Real.sin (-(degToRad declinationDegrees)),
           Real.cos (-(degToRad declinationDegrees)), 0)) ∧
    (camTickTrace declinationDegrees interacting).getLast?
      = some (CamEvent.lookAt (0, 0, 0)) := by
  cases interacting <;> simp [camTickTrace, upVector]

/-- Claim C9: for every finite instant, the declination returned by the solar
position model lies in `[-23.44, 23.44]` degrees, and it is a continuous
function of the instant — in particular there is no discontinuity at UTC day
boundaries. -/
theorem sunDeclination_range_and_continuous :
    (∀ dt : ℝ, -23.44 ≤ getSunDeclination dt ∧ getSunDeclination dt ≤ 23.44) ∧
    Continuous getSunDeclination := by
  obtain ⟨hrange, hcont⟩ := declinationAt_range_continuous
  refine ⟨fun dt => hrange (centuryR dt), ?_⟩
  exact hcont.comp ((continuous_id.sub continuous_const).div_const _)


/-- Claim C5: the interaction gate satisfies its transition table: `start`
sets the gate Active and cancels any pending release timer; `end` arms a
release timer with the fixed 2000 ms debounce delay; a
`start`–`end`–(advance by less than the delay)–`start` sequence leaves the gate
Active (indeed it is still Active even before the second `start`); and
advancing the clock past the delay with no further `start` transitions the
gate to Idle exactly once — a later advance is a no-op — resetting the
scheduler's frame-time baseline to the current time. -/
theorem interactionGate_spec (s : GateState) (t0 t1 u0 u1 u2 : ℤ)
    (hlt : t1 < t0 + debounceDelayMs) (hge : u0 + debounceDelayMs ≤ u1) :
    debounceDelayMs = 2000 ∧
    (handleInteractionStart s).isInteracting = true ∧
    (handleInteractionStart s).timerDeadline = none ∧
    (handleInteractionEnd t0 s).timerDeadline = some (t0 + debounceDelayMs) ∧
    (advanceClock t1 (handleInteractionEnd t0
        (handleInteractionStart s))).isInteracting = true ∧
    (handleInteractionStart (advanceClock t1 (handleInteractionEnd t0
        (handleInteractionStart s)))).isInteracting = true ∧
    (advanceClock u1 (handleInteractionEnd u0
        (handleInteractionStart s))).isInteracting = false ∧
    (advanceClock u1 (handleInteractionEnd u0
        (handleInteractionStart s))).lastFrameTime = u1 ∧
    advanceClock u2 (advanceClock u1 (handleInteractionEnd u0
        (handleInteractionStart s)))
      = advanceClock u1 (handleInteractionEnd u0 (handleInteractionStart s)) := by
  have hno : ¬ (t0 + debounceDelayMs ≤ t1) := not_le.mpr hlt
  refine ⟨rfl, rfl, rfl, rfl, ?_, ?_, ?_, ?_, ?_⟩ <;>
    simp [handleInteractionStart, handleInteractionEnd, advanceClock, hno, hge]

/-- Witness for `interactionGate_spec`: gate initially Idle at time 0,
interaction start and end at `t = 0`, a short advance to `t = 1000`
(still within the 2000 ms debounce), a long advance to `t = 2001`
(past the debounce), and a redundant later advance at `t = 5000`. -/
theorem interactionGate_spec_witness :
    debounceDelayMs = 2000 ∧
    (handleInteractionStart ⟨false, none, 0⟩).isInteracting = true ∧
    (handleInteractionStart ⟨false, none, 0⟩).timerDeadline = none ∧
    (handleInteractionEnd 0 ⟨false, none, 0⟩).timerDeadline
      = some (0 + debounceDelayMs) ∧
    (advanceClock 1000 (handleInteractionEnd 0
        (handleInteractionStart ⟨false, none, 0⟩))).isInteracting = true ∧
    (handleInteractionStart (advanceClock 1000 (handleInteractionEnd 0
        (handleInteractionStart ⟨false, none, 0⟩)))).isInteracting = true ∧
    (advanceClock 2001 (handleInteractionEnd 0
        (handleInteractionStart ⟨false, none, 0⟩))).isInteracting = false ∧
    (advanceClock 2001 (handleInteractionEnd 0
        (handleInteractionStart ⟨false, none, 0⟩))).lastFrameTime = 2001 ∧
    advanceClock 5000 (advanceClock 2001 (handleInteractionEnd 0
        (handleInteractionStart ⟨false, none, 0⟩)))
      = advanceClock 2001 (handleInteractionEnd 0
          (handleInteractionStart ⟨false, none, 0⟩)) :=
  interactionGate_spec ⟨false, none, 0⟩ 0 1000 0 2001 5000 (by decide) (by decide)

/-- Claim C7: for the day/night blend
`intensity = max(0, dot(vNormal, sunDirection))`,
`blend = smoothstep(0.0, 0.15, intensity)`,
`color = mix(night, day, blend)`: at `intensity` equal to the lower edge the
blended color equals the night sample, and at or above the upper edge it
equals the day sample. -/
theorem shading_boundary (vNormal : ℚ × ℚ × ℚ) (dayColor nightColor : Color) :
    (fragIntensity vNormal = terminatorLoEdge →
      fragShade vNormal dayColor nightColor = nightColor) ∧
    (terminatorHiEdge ≤ fragIntensity vNormal →
      fragShade vNormal dayColor nightColor = dayColor) := by
  constructor
  · intro h
    rw [fragShade, h, smoothstepQ_lo, mixColor_zero]
  · intro h
    rw [fragShade, smoothstepQ_hi _ h, mixColor_one]

/-- Witness for `shading_boundary`: the normal `(0, 1, 0)` faces away from the
sun axis (`intensity = 0`, the lower edge) and yields the night sample; the
normal `(1, 0, 0)` faces the sun (`intensity = 1 ≥ 0.15`) and yields the day
sample. -/
theorem shading_boundary_witness :
    fragShade (0, 1, 0) ⟨1, 1, 1, 1⟩ ⟨0, 0, 0, 1⟩ = ⟨0, 0, 0, 1⟩ ∧
    fragShade (1, 0, 0) ⟨1, 1, 1, 1⟩ ⟨0, 0, 0, 1⟩ = ⟨1, 1, 1, 1⟩ :=
  ⟨(shading_boundary (0, 1, 0) ⟨1, 1, 1, 1⟩ ⟨0, 0, 0, 1⟩).1
      (by norm_num [fragIntensity, dot3, sunDirectionViewSpace, terminatorLoEdge]),
   (shading_boundary (1, 0, 0) ⟨1, 1, 1, 1⟩ ⟨0, 0, 0, 1⟩).2
      (by norm_num [fragIntensity, dot3, sunDirectionViewSpace, terminatorHiEdge])⟩

/-- Witness for `animate_idle_preserves_lat_alt` at the concrete idle state
`sampleState` and `now = 1000`. -/
theorem animate_idle_preserves_lat_alt_witness :
    (animateStep (fun _ => 0) degreesPerMillisecond 1000 sampleState).pov.lat
      = sampleState.pov.lat ∧
    (animateStep (fun _ => 0) degreesPerMillisecond 1000 sampleState).pov.alt
      = sampleState.pov.alt :=
  animate_idle_preserves_lat_alt (fun _ => 0) degreesPerMillisecond 1000
    sampleState rfl rfl rfl rfl (by decide)

end Globe
